import Mathlib

/-!
Verification development for the `vigilante` repository
(`src/vigilante/nightcrawler.py` and `src/vigilante/typhonn.py`).

The embedding is shallow: Python functions become Lean functions; the
HTTP transport, the HTML parser, the TLS layer and the small pieces of
the Python standard library (`urllib.parse`) are external collaborators
and are modelled as explicit oracle fields or as small faithful Lean
functions.  Every exception path of the source is made explicit with
`Option`/`Except`.
-/

namespace Vigilante

/-- A node of the parsed HTML document, the output of the external
HTML Extraction Port (`BeautifulSoup(html, "html.parser")` in the
source).  An element carries its (lower-cased) tag, its attribute list
and its children; a text node carries its string. -/
inductive Node where
  | elem (tag : String) (attrs : List (String × String)) (children : List Node)
  | text (s : String)

/-- First value of the attribute `name`, if present (`tag.get(name)` /
`tag[name]` in BeautifulSoup). -/
def attr? (n : Node) (name : String) : Option String :=
  match n with
  | .elem _ attrs _ => (attrs.find? (fun p => p.1 == name)).map (fun p => p.2)
  | .text _ => none

/-- Whether `n` is an element with tag `t`. -/
def tagIs (n : Node) (t : String) : Bool :=
  match n with
  | .elem tg _ _ => tg == t
  | .text _ => false

/-- Children of an element node (text nodes have none). -/
def childrenOf (n : Node) : List Node :=
  match n with
  | .elem _ _ c => c
  | .text _ => []

mutual
/-- Document-order (pre-order) listing of a node and all its
descendants; this is the order BeautifulSoup's `find`/`find_all`/
`select` traverse. -/
def preorderNode : Node → List Node
  | .text s => [.text s]
  | .elem t a c => .elem t a c :: preorderForest c

/-- Document-order listing of a forest of nodes. -/
def preorderForest : List Node → List Node
  | [] => []
  | n :: ns => preorderNode n ++ preorderForest ns
end

mutual
/-- All text strings inside a node, in document order
(BeautifulSoup's `strings`). -/
def textsNode : Node → List String
  | .text s => [s]
  | .elem _ _ c => textsForest c

/-- All text strings inside a forest, in document order. -/
def textsForest : List Node → List String
  | [] => []
  | n :: ns => textsNode n ++ textsForest ns
end

mutual
/-- Document-order listing of a node together with, for every listed
node, its next sibling (BeautifulSoup's `next_sibling`); used to model
`find_next` (the first later node in document order) combined with
`next_sibling`. -/
def flatNode : Node → Option Node → List (Node × Option Node)
  | .text s, sib => [(.text s, sib)]
  | .elem t a c, sib => (.elem t a c, sib) :: flatForest c

/-- Flattening of a forest, pairing each node with its next sibling. -/
def flatForest : List Node → List (Node × Option Node)
  | [] => []
  | n :: ns => flatNode n ns.head? ++ flatForest ns
end

/-- Whether the character list `sub` occurs inside `l`: Python's
`sub in s` substring test. -/
def containsChars (sub : List Char) : List Char → Bool
  | [] => sub.isEmpty
  | c :: rest => sub.isPrefixOf (c :: rest) || containsChars sub rest

/-- Python's `sub in s` substring test. -/
def strContains (s sub : String) : Bool :=
  containsChars sub.data s.data

/-- Worker for Python's `s.split(sep)`: walks the input character by
character; `skip` holds the characters of a just-matched separator
still to consume, `accRev` the current piece reversed. -/
def splitGo (sep : List Char) : List Char → List Char → List Char → List (List Char)
  | [], _, accRev => [accRev.reverse]
  | _ :: rest, _ :: srest, accRev => splitGo sep rest srest accRev
  | c :: rest, [], accRev =>
    if sep.isPrefixOf (c :: rest) && !sep.isEmpty then
      accRev.reverse :: splitGo sep rest (sep.drop 1) []
    else splitGo sep rest [] (c :: accRev)

/-- Python's `s.split(sep)` for a nonempty separator: the pieces
between the non-overlapping occurrences of `sep`, scanned left to
right; a string without an occurrence yields the one-element list
`[s]`. -/
def splitL (s sep : String) : List String :=
  (splitGo sep.data s.data [] []).map String.mk

/-- Worker for Python's no-argument `s.split()`: maximal runs of
non-whitespace characters, empties dropped. -/
def splitWS : List Char → List Char → List (List Char)
  | [], [] => []
  | [], acc => [acc.reverse]
  | c :: rest, acc =>
    if c.isWhitespace then
      match acc with
      | [] => splitWS rest []
      | _ => acc.reverse :: splitWS rest []
    else splitWS rest (c :: acc)

/-- Python's `s.strip()`: leading and trailing whitespace removed. -/
def pyStrip (s : String) : String :=
  String.mk (((s.data.dropWhile Char.isWhitespace).reverse.dropWhile
    Char.isWhitespace).reverse)

/-- Python's `s.lower()`. -/
def lowerStr (s : String) : String :=
  String.mk (s.data.map Char.toLower)

/-- Concatenation of a list of strings with no separator. -/
def strJoin (pieces : List String) : String :=
  pieces.foldl (fun a b => a ++ b) ""

/-- Python's `s.startswith(pre)`. -/
def pyStartsWith (s pre : String) : Bool :=
  pre.data.isPrefixOf s.data

/-- Characters allowed in a URL scheme after the leading letter
(`urllib.parse`'s `scheme_chars`). -/
def isSchemeChar (c : Char) : Bool :=
  c.isAlphanum || c == '+' || c == '-' || c == '.'

/-- Worker for scheme splitting: scan to the first `:`; return the
characters after it when the text before it is a valid nonempty
scheme, `none` otherwise. -/
def schemeSplitGo : List Char → List Char → Option (List Char)
  | [], _ => none
  | c :: rest, accRev =>
    if c = ':' then
      match accRev.reverse with
      | [] => none
      | h :: t => if h.isAlpha && (h :: t).all isSchemeChar then some rest else none
    else schemeSplitGo rest (c :: accRev)

/-- Models `urllib.parse`: drop a leading `scheme:` when the text
before the first colon is nonempty, starts with a letter and consists
of scheme characters; otherwise return the URL unchanged. -/
def stripScheme (url : String) : String :=
  match schemeSplitGo url.data [] with
  | some rest => String.mk rest
  | none => url

/-- Prefix of `s` up to the first `/`, `?` or `#`. -/
def takeUntilDelims (s : String) : String :=
  String.mk (s.data.takeWhile (fun c => c != '/' && c != '?' && c != '#'))

/-- Models `urllib.parse.urlparse(url).netloc` (standard library,
external): the authority component, nonempty only when the remainder
after the scheme starts with `//`. -/
def netloc (url : String) : String :=
  let rest := stripScheme url
  if pyStartsWith rest "//" then
    takeUntilDelims (String.mk (rest.data.drop 2))
  else ""

/-- `tag.get_text(strip=True)`: every contained string stripped of
surrounding whitespace and concatenated. -/
def getTextStrip (n : Node) : String :=
  strJoin ((textsNode n).map pyStrip)

/-- One structured search result (`ResultRecord` of the spec): the
dictionaries built by `_parse_tordex` / `_parse_tor66`, plus the
`alive` annotation added by liveness checking. -/
structure ResultRecord where
  title : String
  url : String
  description : String
  domain : String
  alive : Option Bool := none
deriving Repr, DecidableEq

/-- First descendant of `n` (excluding `n` itself) with tag `t`, in
document order: BeautifulSoup's `n.find(t)`. -/
def findDesc (n : Node) (t : String) : Option Node :=
  (preorderForest (childrenOf n)).find? (fun m => tagIs m t)

/-- Class-attribute tokens of a node, split on whitespace. -/
def classList (n : Node) : List String :=
  match attr? n "class" with
  | some v => (splitWS v.data []).map String.mk
  | none => []

/-- Whether a node matches the CSS selector `div.result`. -/
def isResultDiv (n : Node) : Bool :=
  tagIs n "div" && (classList n).contains "result"

/-- `soup.select("div.result")`: every matching element of the
document, in document order. -/
def selectResultDivs (doc : List Node) : List Node :=
  (preorderForest doc).filter isResultDiv

/-- The record `_parse_tordex` builds from one `div.result` block:
title from the first `h5` (default `"No Title"`), URL text from the
first `a` under the first `h6` (default `""`), description from the
first `p` (default `"No Description"`), domain from
`urlparse(url_text).netloc or "Unknown"`. -/
def mkTordexRecord (block : Node) : ResultRecord :=
  let title :=
    match findDesc block "h5" with
    | some titleTag => getTextStrip titleTag
    | none => "No Title"
  let urlText :=
    match findDesc block "h6" with
    | some linkTag =>
      match findDesc linkTag "a" with
      | some aTag => getTextStrip aTag
      | none => ""
    | none => ""
  let description :=
    match findDesc block "p" with
    | some descTag => getTextStrip descTag
    | none => "No Description"
  let dm := netloc urlText
  { title := title, url := urlText, description := description,
    domain := if dm = "" then "Unknown" else dm }

/-- `Nightcrawler._parse_tordex`, over the parsed document. -/
def parse_tordex (doc : List Node) : List ResultRecord :=
  (selectResultDivs doc).map mkTordexRecord

/-- The `href` of an anchor element that carries one
(`soup.find_all("a", href=True)` membership test). -/
def anchorHref? (n : Node) : Option String :=
  if tagIs n "a" then attr? n "href" else none

/-- Description recovery of `_parse_tor66`: `a.find_next("br")` is the
first `br` strictly after the anchor in document order; its
`next_sibling`, when it is a string, is stripped; an empty or missing
result degrades to `"No Description"`. -/
def tor66Description (rest : List (Node × Option Node)) : String :=
  match rest.find? (fun p => tagIs p.1 "br") with
  | some (_, some (.text s)) =>
    let d := pyStrip s
    if d = "" then "No Description" else d
  | _ => "No Description"

/-- The record `_parse_tor66` builds from one qualifying anchor.  The
guard `"url.php?u=" in href and ".onion" in href` makes the indexing
`href.split("url.php?u=")[1]` total (the split has at least two
pieces), so the source's `try`/`except continue` never fires and needs
no error case here. -/
def mkTor66Record (href : String) (a : Node)
    (rest : List (Node × Option Node)) : Option ResultRecord :=
  if strContains href "url.php?u=" && strContains href ".onion" then
    let afterU := (splitL href "url.php?u=").getD 1 ""
    let onion := String.mk (afterU.data.takeWhile (fun c => c != '&'))
    let t := getTextStrip a
    let dm := netloc onion
    some { title := if t = "" then "No Title" else t,
           url := onion,
           description := tor66Description rest,
           domain := if dm = "" then "Unknown" else dm }
  else none

/-- Loop of `_parse_tor66` over the flattened document: each anchor
with an `href` is considered, and `find_next` searches the nodes after
it in document order (exactly the tail of the flattening). -/
def tor66Loop : List (Node × Option Node) → List ResultRecord
  | [] => []
  | (n, _) :: rest =>
    match anchorHref? n with
    | some href =>
      match mkTor66Record href n rest with
      | some r => r :: tor66Loop rest
      | none => tor66Loop rest
    | none => tor66Loop rest

/-- `Nightcrawler._parse_tor66`, over the parsed document. -/
def parse_tor66 (doc : List Node) : List ResultRecord :=
  tor66Loop (flatForest doc)

/-- One cookie of an HTTP response, with the two attributes
`_analyze_cookies` inspects: the `Secure` flag (`cookie.secure`) and
the nonstandard `HttpOnly` attribute
(`cookie.has_nonstandard_attr("HttpOnly")`). -/
structure Cookie where
  name : String
  secure : Bool
  httpOnlyAttr : Bool
deriving Repr, DecidableEq

/-- An HTTP response as delivered by the external HTTP Client Port:
status code, header list, cookies and the raw body text. -/
structure Resp where
  status : Nat
  headers : List (String × String) := []
  cookies : List Cookie := []
  bodyText : String := ""

/-- The external collaborators `Nightcrawler` relies on: the
HTTP transport (`session.get`; `none` models a raised transport
exception, timeouts included), the HTML Extraction Port
(`BeautifulSoup`) and `urllib.parse.quote`. -/
structure CrawlWorld where
  get : String → Option Resp
  parse : String → List Node
  quote : String → String

/-- `Nightcrawler.is_alive`: the probe GET (redirects followed,
timeout 10) must complete with a status code strictly below 500; any
exception returns `False`. -/
def is_alive (w : CrawlWorld) (url : String) : Bool :=
  match w.get url with
  | some res => res.status < 500
  | none => false

/-- The liveness-checking step of `crawl`: each record's `alive` field
is set to `is_alive` of its URL.  In the source the records are probed
by a bounded thread pool (at most 20 workers) but each record is
written by exactly one probe, so the observable outcome is this
per-record map. -/
def checkAliveAll (w : CrawlWorld) (records : List ResultRecord) :
    List ResultRecord :=
  records.map (fun r => { r with alive := some (is_alive w r.url) })

/-- One entry of the engine registry (`EngineConfig` of the spec): the
source stores a dict with `url` and `parser` keys and reads the
`active` flag with `config.get("active", True)`, so a missing flag
means active.  A `parser` of `none` models a `None` parser
(`parser(html) if parser else []`). -/
structure EngineConfig where
  name : String
  url : String
  parser : Option (List Node → List ResultRecord)
  active : Bool := true

/-- Observable side effects of `crawl`, recorded in order: an HTTP
request for a URL, or the invocation of an engine's extractor. -/
inductive Event where
  | request (url : String)
  | extracted (engine : String)
deriving Repr, DecidableEq

/-- The body of `crawl`'s per-engine loop.  Returns `none` when the
engine contributes no key to the result dict (inactive engine, or the
`continue` on a non-200 status), `some records` otherwise; the second
component is the trace of this engine's side effects.  A transport
exception is caught and yields `some []` (the key is kept with an
empty list). -/
def crawlEngine (w : CrawlWorld) (checkAlive : Bool) (e : EngineConfig) :
    Option (List ResultRecord) × List Event :=
  if !e.active then (none, [])
  else
    match w.get e.url with
    | none => (some [], [.request e.url])
    | some res =>
      if res.status ≠ 200 then (none, [.request e.url])
      else
        match e.parser with
        | none => (some [], [.request e.url])
        | some p =>
          let page := p (w.parse res.bodyText)
          if checkAlive && !page.isEmpty then
            (some (checkAliveAll w page),
             .request e.url :: .extracted e.name ::
               page.map (fun r => .request r.url))
          else
            (some page, [.request e.url, .extracted e.name])

/-- `crawl`'s loop over the engine registry, collecting the result
dict (an insertion-ordered association list, as a Python dict) and the
trace of side effects. -/
def crawlAll (w : CrawlWorld) (checkAlive : Bool) :
    List EngineConfig → List (String × List ResultRecord) × List Event
  | [] => ([], [])
  | e :: rest =>
    let head := crawlEngine w checkAlive e
    let tail := crawlAll w checkAlive rest
    (match head.1 with
     | some rs => (e.name, rs) :: tail.1
     | none => tail.1,
     head.2 ++ tail.2)

/-- The hard-coded engine registry of `crawl`, instantiated at the
percent-encoded search term `q`.  Neither entry sets an `active` key,
so both default to active. -/
def searchEngines (q : String) : List EngineConfig :=
  [ { name := "Tordex",
      url := "http://tordexu73joywapk2txdr54jed4imqledpcvcuf75qsas2gwdgksvnyd.onion/search?query=" ++ q,
      parser := some parse_tordex },
    { name := "Tor66",
      url := "http://kn3hl4xwon63tc6hpjrwza2npb7d4w5yhbzq7jjewpfzyhsd65tm6dad.onion/search.php?search=" ++ q ++ "&submit=Search&rt=",
      parser := some parse_tor66 } ]

/-- `Nightcrawler.crawl`: percent-encode the term, walk the registry,
return the per-engine result dict (the optional export step is an
external side effect on the already-computed result and is omitted).
Every exception of the loop body is caught in the source, so the
function is total in every oracle: `crawl` never raises. -/
def crawl (w : CrawlWorld) (term : String) (checkAlive : Bool) :
    List (String × List ResultRecord) × List Event :=
  crawlAll w checkAlive (searchEngines (w.quote term))

/-! ## Typhonn -/

/-- Case-insensitive header lookup (`requests` exposes headers as a
case-insensitive dict). -/
def headerGet (hs : List (String × String)) (name : String) : Option String :=
  (hs.find? (fun p => lowerStr p.1 == lowerStr name)).map (fun p => p.2)

/-- Case-insensitive header membership (`name in headers`). -/
def headerHas (hs : List (String × String)) (name : String) : Bool :=
  hs.any (fun p => lowerStr p.1 == lowerStr name)

/-- The scan report (`self.report`): Python-dict fields become record
fields, with `none` for a key that was never set.  `detected_issues`
is an insertion-ordered association list, as a Python dict.  The
`ssl_issuer`/`ssl_expiry` values are themselves optional because the
source stores `cert.get(...)`, which may be `None`. -/
structure Report where
  url : String
  timestamp : String
  detected_issues : List (String × List String) := []
  risk_score : Nat := 0
  ssl_issuer : Option (Option String) := none
  ssl_expiry : Option (Option String) := none
  error : Option String := none
  threat_level : Option String := none
deriving Repr

/-- Python dict assignment `d[k] = v`: replace the entry in place
(keys are unique in a dict) when the key exists, append otherwise. -/
def setKey : List (String × List String) → String → List String →
    List (String × List String)
  | [], k, v => [(k, v)]
  | p :: rest, k, v =>
    if p.1 == k then (k, v) :: rest else p :: setKey rest k v

/-- Python dict lookup `d.get(k)`. -/
def getKey? (d : List (String × List String)) (k : String) :
    Option (List String) :=
  (d.find? (fun p => p.1 == k)).map (fun p => p.2)

/-- The statement `self.report["detected_issues"][k] = v`. -/
def setIssue (rep : Report) (k : String) (v : List String) : Report :=
  { rep with detected_issues := setKey rep.detected_issues k v }

/-- The certificate fields `_analyze_ssl` reads
(`cert.get("issuer")`, `cert.get("notAfter")`). -/
structure SslCert where
  issuer : Option String := none
  notAfter : Option String := none

/-- The external collaborators `Typhonn` relies on: the HTTP
transport with and without redirect following (`.error e` models a
raised exception with message `e`, timeouts included), the HTML
Extraction Port, the raw TLS connection of `_analyze_ssl` keyed by
hostname, and `urllib.parse.urljoin`. -/
structure ScanWorld where
  get : String → Except String Resp
  getNoRedirect : String → Except String Resp
  parse : String → List Node
  sslCert : String → Except String SslCert
  urljoinF : String → String → String

/-- `Typhonn._normalize`: prefix `http://` when the URL does not start
with `http`. -/
def normalize (url : String) : String :=
  if pyStartsWith url "http" then url else "http://" ++ url

/-- The scanner state: the normalized target, the detail flag and the
single report dict created in `__init__` and mutated by `analyze`. -/
structure Typhonn where
  url : String
  detail : Bool
  report : Report

/-- `Typhonn.__init__`: normalize the URL once and create the report
with the construction-time timestamp (`time.ctime()`), an empty
`detected_issues` dict and `risk_score` 0. -/
def Typhonn.init (url : String) (detail : Bool) (ts : String) : Typhonn :=
  { url := normalize url, detail := detail,
    report := { url := normalize url, timestamp := ts } }

/-- `Typhonn._analyze_headers`: pure function of the response
headers. -/
def analyze_headers (r : Resp) : List String :=
  (match headerGet r.headers "Server" with
   | some v => ["Server info leaked: " ++ v]
   | none => []) ++
  (match headerGet r.headers "X-Powered-By" with
   | some v => ["Tech stack leaked: " ++ v]
   | none => []) ++
  (if headerHas r.headers "Strict-Transport-Security" then []
   else ["Missing HSTS header"]) ++
  (if headerHas r.headers "Content-Security-Policy" then []
   else ["Missing CSP header"]) ++
  (if headerHas r.headers "X-Frame-Options" then []
   else ["Missing X-Frame-Options header"])

/-- `Typhonn._analyze_cookies`: one finding per missing attribute per
cookie, Secure first. -/
def analyze_cookies (r : Resp) : List String :=
  r.cookies.flatMap (fun c =>
    (if !c.secure then [c.name ++ " missing Secure flag"] else []) ++
    (if !c.httpOnlyAttr then [c.name ++ " missing HttpOnly"] else []))

/-- `Typhonn._analyze_meta`: meta tags whose `name` is `generator`,
`author` or `powered-by`; the finding echoes name and content (a
missing content renders as Python's `None`). -/
def analyze_meta (doc : List Node) : List String :=
  ((preorderForest doc).filter (fun n => tagIs n "meta")).filterMap
    (fun m =>
      match attr? m "name" with
      | some nm =>
        if nm = "generator" ∨ nm = "author" ∨ nm = "powered-by" then
          some (nm ++ ": " ++ ((attr? m "content").getD "None"))
        else none
      | none => none)

/-- Serialization of an attribute list, as in `str(tag)`. -/
def renderAttrs : List (String × String) → String
  | [] => ""
  | (k, v) :: rest => " " ++ k ++ "=\"" ++ v ++ "\"" ++ renderAttrs rest

mutual
/-- Serialization of a node back to markup, modelling Python's
`str(form)`; only its lower-cased text matters (the `csrf` substring
test). -/
def renderNode : Node → String
  | .text s => s
  | .elem t a c => "<" ++ t ++ renderAttrs a ++ ">" ++ renderForest c ++ "</" ++ t ++ ">"

/-- Serialization of a forest of nodes. -/
def renderForest : List Node → String
  | [] => ""
  | n :: ns => renderNode n ++ renderForest ns
end

/-- `Typhonn._analyze_forms`: per form, a falsy `action` attribute
(absent or empty) and the absence of the substring `csrf` in the
lower-cased serialized form are flagged independently. -/
def analyze_forms (doc : List Node) : List String :=
  ((preorderForest doc).filter (fun n => tagIs n "form")).flatMap (fun f =>
    (if ((attr? f "action").getD "") = "" then
      ["Form with no action attribute"] else []) ++
    (if strContains (lowerStr (renderNode f)) "csrf" then []
     else ["Possible missing CSRF token"]))

/-- BeautifulSoup's `tag.string`: the contained string when the tag
has exactly one child all the way down to a text node, else `None`. -/
def dotString : Node → Option String
  | .text s => some s
  | .elem _ _ [c] => dotString c
  | .elem _ _ [] => none
  | .elem _ _ (_ :: _ :: _) => none

/-- Continuation of the regex `atob\([^)]+\)` after the literal
`atob(`: at least one character other than `)` followed by `)`. -/
def atobTail (l : List Char) : Bool :=
  let body := l.takeWhile (fun c => c ≠ ')')
  !body.isEmpty && (l.drop body.length).head? == some ')'

/-- `re.search` for the pattern `atob\([^)]+\)`: try a match at every
position. -/
def atobSearch : List Char → Bool
  | [] => false
  | c :: rest =>
    ("atob(".toList.isPrefixOf (c :: rest) && atobTail ((c :: rest).drop 5))
      || atobSearch rest

/-- Whether `re.search(r"atob\([^)]+\)", code)` matches. -/
def atobMatch (code : String) : Bool :=
  atobSearch code.toList

/-- `Typhonn._analyze_scripts`: per script tag, suspicious function
names in `script.string or ""` and the `atob(...)` pattern are flagged
independently. -/
def analyze_scripts (doc : List Node) : List String :=
  ((preorderForest doc).filter (fun n => tagIs n "script")).flatMap (fun sc =>
    let code := (dotString sc).getD ""
    (if strContains code "eval(" || strContains code "setTimeout(" ||
        strContains code "new Function" then
      ["Suspicious JavaScript function used"] else []) ++
    (if atobMatch code then ["Base64 obfuscation pattern detected"] else []))

/-- Models `urlparse(url).hostname` (standard library, external): the
netloc with userinfo and port removed, lower-cased. -/
def hostname (url : String) : String :=
  let n := netloc url
  let afterUser := ((splitL n "@").getLast?).getD n
  lowerStr (String.mk (afterUser.data.takeWhile (fun c => c != ':')))

/-- `Typhonn._analyze_ssl`: on a successful TLS connection record
issuer and expiry; any failure becomes the single finding of category
`ssl`. -/
def applySsl (w : ScanWorld) (url : String) (rep : Report) : Report :=
  match w.sslCert (hostname url) with
  | .ok cert =>
    { rep with ssl_issuer := some cert.issuer,
               ssl_expiry := some cert.notAfter }
  | .error e =>
    setIssue rep "ssl" ["SSL check failed: " ++ e]

/-- The loop of `_check_redirect_behavior` (`for _ in range(10)`),
with the remaining iteration count as fuel.  Returns the accumulated
`seen` list (the distinct `Location` values, in order of first sight)
or the exception that aborted the loop, together with the list of URLs
requested.  The loop breaks on a missing or falsy `Location` header
and on a repeated target. -/
def redirectLoop (w : ScanWorld) :
    Nat → String → List String → Except String (List String) × List String
  | 0, _, seen => (.ok seen, [])
  | fuel + 1, current, seen =>
    match w.getNoRedirect current with
    | .error e => (.error e, [current])
    | .ok res =>
      match headerGet res.headers "Location" with
      | none => (.ok seen, [current])
      | some loc =>
        if loc = "" || seen.contains loc then (.ok seen, [current])
        else
          let next := redirectLoop w fuel (w.urljoinF current loc) (seen ++ [loc])
          (next.1, current :: next.2)

/-- `Typhonn._check_redirect_behavior`: chase redirects for at most 10
hops; only when the loop finished without exception and strictly more
than 5 distinct targets were seen is the single `redirect` finding
written; otherwise (including any exception, `try`/`except: pass`) the
report is untouched. -/
def check_redirect_behavior (w : ScanWorld) (url : String) (rep : Report) :
    Report :=
  match (redirectLoop w 10 url []).1 with
  | .ok seen =>
    if seen.length > 5 then
      setIssue rep "redirect" ["Multiple chained redirects (possible trap)"]
    else rep
  | .error _ => rep

/-- The fixed probe list of `_detect_hidden_paths`. -/
def commonPaths : List String :=
  ["/.git", "/.env", "/admin", "/config", "/backup.zip"]

/-- `Typhonn._detect_hidden_paths`: one GET per path; a 200 status
keeps the path, a failure of an individual request is silently
skipped. -/
def detect_hidden_paths (w : ScanWorld) (url : String) : List String :=
  commonPaths.filter (fun p =>
    match w.get (w.urljoinF url p) with
    | .ok res => res.status == 200
    | .error _ => false)

/-- `Typhonn._detect_honeypot`: two probe GETs with dummy query
parameters; identical trimmed bodies is one flag, then one flag per
element whose `style` attribute contains `display:none`.  An exception
in either GET leaves the flag list empty (the flags are appended only
after both GETs have succeeded). -/
def honeypotFlags (w : ScanWorld) (url : String) (doc : List Node) :
    List String :=
  match w.get (url ++ "?q=test1") with
  | .error _ => []
  | .ok r1 =>
    match w.get (url ++ "?q=test2") with
    | .error _ => []
    | .ok r2 =>
      (if pyStrip r1.bodyText = pyStrip r2.bodyText then
        ["Identical response for unrelated queries"] else []) ++
      ((preorderForest doc).filterMap (fun t => attr? t "style")).filterMap
        (fun st =>
          if strContains st "display:none" then
            some "Invisible HTML element detected"
          else none)

/-- The accumulation of `_calculate_risk`'s loop:
`total += len(issues) * 5` over all categories. -/
def weightedTotal (issues : List (String × List String)) : Nat :=
  issues.foldl (fun acc p => acc + p.2.length * 5) 0

/-- The threshold chain of `_calculate_risk`, applied to the pre-clamp
weighted total. -/
def threatLevel (total : Nat) : String :=
  if total > 75 then "CRITICAL"
  else if total > 40 then "HIGH"
  else if total > 20 then "MEDIUM"
  else "LOW"

/-- `Typhonn._calculate_risk`: clamp the weighted total to 100 for
`risk_score` and classify the unclamped total. -/
def calculate_risk (rep : Report) : Report :=
  let total := weightedTotal rep.detected_issues
  { rep with risk_score := min total 100,
             threat_level := some (threatLevel total) }

/-- The analyzer passes of `analyze`, in source order, for the
execution trace. -/
inductive Pass where
  | headers | ssl | cookies | meta | forms | scripts | textContent
  | redirect | hiddenPaths | honeypot
deriving Repr, DecidableEq

/-- The passes `analyze` always runs after a successful fetch, in
order. -/
def mandatoryPasses : List Pass :=
  [.headers, .ssl, .cookies, .meta, .forms, .scripts, .textContent]

/-- The deep-probe passes, run only under `detail=True`, in order. -/
def deepPasses : List Pass :=
  [.redirect, .hiddenPaths, .honeypot]

/-- `Typhonn.analyze`.  On a fetch exception the report only gains the
`error` text and is returned with no pass run.  On success the passes
run in source order against the single response `r` and parsed
document, then the deep probes when `detail` is set, then the risk
aggregation.  Returns the mutated scanner, the report it now holds
(the same dict object in the source) and the trace of executed passes.

The seventh mandatory call of the source, `_analyze_text_content`, is
declared only by its call site in the available sources.  Modelled
from the spec: §2 counts seven mandatory analyzer passes and §4.5
makes every pass a pure function of the fetched page writing into one
named category, so it is taken as the parameter `tc`, writing the
category `text_content`. -/
def analyze (tc : List Node → List String) (w : ScanWorld) (t : Typhonn) :
    Typhonn × Report × List Pass :=
  match w.get t.url with
  | .error e =>
    let rep := { t.report with error := some ("Failed to fetch page: " ++ e) }
    ({ t with report := rep }, rep, [])
  | .ok r =>
    let soup := w.parse r.bodyText
    let rep1 := setIssue t.report "headers" (analyze_headers r)
    let rep2 := applySsl w t.url rep1
    let rep3 := setIssue rep2 "cookies" (analyze_cookies r)
    let rep4 := setIssue rep3 "meta" (analyze_meta soup)
    let rep5 := setIssue rep4 "forms" (analyze_forms soup)
    let rep6 := setIssue rep5 "scripts" (analyze_scripts soup)
    let rep7 := setIssue rep6 "text_content" (tc soup)
    let rep8 :=
      if t.detail then
        let repA := check_redirect_behavior w t.url rep7
        let repB := setIssue repA "hidden_paths" (detect_hidden_paths w t.url)
        setIssue repB "honeypot" (honeypotFlags w t.url soup)
      else rep7
    let repF := calculate_risk rep8
    ({ t with report := repF }, repF,
     mandatoryPasses ++ if t.detail then deepPasses else [])

/-! ## Helper lemmas -/

/-- Looking up the key just assigned returns the assigned value. -/
theorem getKey?_setKey_self (d : List (String × List String)) (k : String)
    (v : List String) : getKey? (setKey d k v) k = some v := by
  induction d with
  | nil => simp [setKey, getKey?]
  | cons p rest ih =>
    by_cases h : p.1 = k
    · simp [setKey, getKey?, h]
    · simp only [setKey, getKey?] at ih ⊢
      simp [h, List.find?, ih]

/-- Assigning one key leaves the lookup of any other key unchanged. -/
theorem getKey?_setKey_ne (d : List (String × List String)) (k k2 : String)
    (v : List String) (h : k2 ≠ k) :
    getKey? (setKey d k v) k2 = getKey? d k2 := by
  induction d with
  | nil =>
    have hk : (k == k2) = false := by simp [Ne.symm h]
    simp [setKey, getKey?, List.find?, hk]
  | cons p rest ih =>
    by_cases hp : p.1 = k
    · have hbk : (p.1 == k) = true := by simp [hp]
      have hkk2 : (k == k2) = false := by simp [Ne.symm h]
      have hpk2 : (p.1 == k2) = false := by simp [hp, Ne.symm h]
      simp [setKey, getKey?, List.find?, hbk, hkk2, hpk2]
    · have hbk : (p.1 == k) = false := by simp [hp]
      by_cases hp2 : p.1 = k2
      · have hb2 : (p.1 == k2) = true := by simp [hp2]
        simp [setKey, getKey?, List.find?, hbk, hb2]
      · have hb2 : (p.1 == k2) = false := by simp [hp2]
        simp only [setKey, getKey?, List.find?, hbk, hb2, cond_false, if_neg,
          Bool.false_eq_true]
        simpa [getKey?] using ih

/-- The fold of `_calculate_risk` with a running accumulator. -/
theorem weightedTotal_go (l : List (String × List String)) (acc : Nat) :
    l.foldl (fun a p => a + p.2.length * 5) acc =
      acc + 5 * (l.map (fun p => p.2.length)).sum := by
  induction l generalizing acc with
  | nil => simp
  | cons p rest ih =>
    simp only [List.foldl, List.map, List.sum_cons]
    rw [ih]
    ring

/-! ## Claims -/

/-- The example findings mapping of the spec's risk-aggregator test:
3 header findings and 2 cookie findings. -/
def exampleFindings : Report :=
  { url := "u", timestamp := "t",
    detected_issues := [("headers", ["a", "b", "c"]), ("cookies", ["d", "e"])] }

/-- C2: for every findings mapping with total finding count N across
all categories, `_calculate_risk` computes the weighted total
T = 5 * N, sets `risk_score = min(T, 100)` and classifies the
pre-clamp total with strict comparisons: T > 75 CRITICAL, else T > 40
HIGH, else T > 20 MEDIUM, else LOW; counts {headers: 3, cookies: 2}
give risk score 25 and MEDIUM, T = 20 gives LOW, T = 76 gives CRITICAL
and T = 75 gives HIGH. -/
theorem c2_risk_aggregator :
    (∀ issues : List (String × List String),
        weightedTotal issues = 5 * (issues.map (fun p => p.2.length)).sum) ∧
    (∀ rep : Report,
        (calculate_risk rep).risk_score =
          min (5 * ((rep.detected_issues.map (fun p => p.2.length)).sum)) 100 ∧
        (calculate_risk rep).threat_level =
          some (threatLevel (weightedTotal rep.detected_issues))) ∧
    (∀ total : Nat, 75 < total → threatLevel total = "CRITICAL") ∧
    (∀ total : Nat, 40 < total → total ≤ 75 → threatLevel total = "HIGH") ∧
    (∀ total : Nat, 20 < total → total ≤ 40 → threatLevel total = "MEDIUM") ∧
    (∀ total : Nat, total ≤ 20 → threatLevel total = "LOW") ∧
    (calculate_risk exampleFindings).risk_score = 25 ∧
    (calculate_risk exampleFindings).threat_level = some "MEDIUM" ∧
    weightedTotal [("headers", ["a", "b", "c", "d"])] = 20 ∧
    threatLevel 20 = "LOW" ∧ threatLevel 76 = "CRITICAL" ∧ threatLevel 75 = "HIGH"
    := by
  have hwt : ∀ issues : List (String × List String),
      weightedTotal issues = 5 * (issues.map (fun p => p.2.length)).sum := by
    intro issues
    unfold weightedTotal
    rw [weightedTotal_go]
    omega
  refine ⟨hwt, ?_, ?_, ?_, ?_, ?_, rfl, rfl, rfl, rfl, rfl, rfl⟩
  · intro rep
    constructor
    · show min (weightedTotal rep.detected_issues) 100 = _
      rw [hwt]
    · rfl
  · intro total h
    unfold threatLevel
    rw [if_pos h]
  · intro total h1 h2
    unfold threatLevel
    rw [if_neg (by omega), if_pos h1]
  · intro total h1 h2
    unfold threatLevel
    rw [if_neg (by omega), if_neg (by omega), if_pos h1]
  · intro total h
    unfold threatLevel
    rw [if_neg (by omega), if_neg (by omega), if_neg (by omega)]

/-- Witness for C2: the tier bounds instantiated at the boundary
totals 76, 75 and 20. -/
theorem c2_witness :
    threatLevel 76 = "CRITICAL" ∧ threatLevel 75 = "HIGH" ∧
    threatLevel 20 = "LOW" :=
  ⟨c2_risk_aggregator.2.2.1 76 (by omega),
   c2_risk_aggregator.2.2.2.1 75 (by omega) (by omega),
   c2_risk_aggregator.2.2.2.2.2.1 20 (by omega)⟩

/-- C6: liveness checking maps every input record, in place, to the
same record with `alive` set to a boolean (output size = input size),
and a record is alive iff its probe GET completes with a status
strictly below 500; status 404 is alive, status 503 is dead, and a
transport exception (or timeout) is dead. -/
theorem c6_liveness_checker :
    (∀ (w : CrawlWorld) (rs : List ResultRecord),
        (checkAliveAll w rs).length = rs.length) ∧
    (∀ (w : CrawlWorld) (rs : List ResultRecord) (i : Nat),
        (checkAliveAll w rs)[i]? =
          rs[i]?.map (fun r => { r with alive := some (is_alive w r.url) })) ∧
    (∀ (w : CrawlWorld) (url : String),
        is_alive w url = true ↔ ∃ res, w.get url = some res ∧ res.status < 500) ∧
    is_alive { get := fun _ => some { status := 404 }, parse := fun _ => [],
               quote := fun s => s } "http://x.onion" = true ∧
    is_alive { get := fun _ => some { status := 503 }, parse := fun _ => [],
               quote := fun s => s } "http://x.onion" = false ∧
    is_alive { get := fun _ => none, parse := fun _ => [],
               quote := fun s => s } "http://x.onion" = false := by
  refine ⟨?_, ?_, ?_, by decide, by decide, rfl⟩
  · intro w rs
    simp [checkAliveAll]
  · intro w rs i
    simp [checkAliveAll, List.getElem?_map]
  · intro w url
    unfold is_alive
    cases h : w.get url with
    | none => simp [h]
    | some res => simp [h, decide_eq_true_iff]

/-- C8: an engine whose `active` flag is false is skipped before any
request or extractor call: it contributes neither a result key nor a
trace event, and the whole crawl behaves as if only the active engines
were configured, for every term and every `check_alive` setting. -/
theorem c8_inactive_engines :
    (∀ (w : CrawlWorld) (ca : Bool) (e : EngineConfig),
        e.active = false → crawlEngine w ca e = (none, [])) ∧
    (∀ (w : CrawlWorld) (ca : Bool) (engines : List EngineConfig),
        crawlAll w ca engines = crawlAll w ca (engines.filter (fun e => e.active))) := by
  constructor
  · intro w ca e h
    simp [crawlEngine, h]
  · intro w ca engines
    induction engines with
    | nil => rfl
    | cons e rest ih =>
      by_cases he : e.active
      · simp only [crawlAll, List.filter_cons, he, if_pos, ih]
      · have h1 : crawlEngine w ca e = (none, []) := by simp [crawlEngine, he]
        simp [crawlAll, List.filter_cons, he, h1, ih]

/-- Witness for C8: a concrete inactive engine against a concrete
transport produces no key and no side effect. -/
theorem c8_witness :
    crawlEngine { get := fun _ => none, parse := fun _ => [],
                  quote := fun s => s } false
      { name := "X", url := "u", parser := none, active := false } = (none, []) :=
  c8_inactive_engines.1 _ false _ rfl

/-- A transport for which the Tordex query URL for the term `drugs`
answers HTTP 500 while every other URL answers HTTP 200 with an empty
body. -/
def http500World : CrawlWorld :=
  { get := fun u =>
      if u = "http://tordexu73joywapk2txdr54jed4imqledpcvcuf75qsas2gwdgksvnyd.onion/search?query=drugs"
      then some { status := 500 } else some { status := 200 },
    parse := fun _ => [], quote := fun s => s }

/-- Counterexample to C1: both registry engines are active, the
Tordex GET returns the non-2xx status 500, yet the crawl result keeps
no key for Tordex at all — the non-200 branch does `continue` without
recording an empty list, so the key is removed rather than mapped to
an empty sequence. -/
theorem c1_counterexample :
    ((crawl http500World "drugs" false).1.map Prod.fst) = ["Tor66"] ∧
    (searchEngines (http500World.quote "drugs")).map EngineConfig.name =
      ["Tordex", "Tor66"] ∧
    ((searchEngines (http500World.quote "drugs")).all fun e => e.active) = true ∧
    (http500World.get
      "http://tordexu73joywapk2txdr54jed4imqledpcvcuf75qsas2gwdgksvnyd.onion/search?query=drugs").map
        Resp.status = some 500 :=
  ⟨rfl, rfl, rfl, rfl⟩

/-- C1 (amended): per-engine isolation of `crawl` — the engines are
processed independently and in order; an active engine whose request
raises a transport exception keeps its key with an empty sequence; an
active engine whose GET returns a status other than 200 contributes
no key at all (the `continue` drops it); an active engine whose GET
returns 200 contributes its extractor's records (liveness-annotated
when requested).  The embedding is total in the oracle, reflecting
that every exception of the loop body is caught: `crawl` never
raises. -/
theorem c1_crawl_isolation :
    (∀ (w : CrawlWorld) (ca : Bool) (es1 es2 : List EngineConfig),
        (crawlAll w ca (es1 ++ es2)).1 =
          (crawlAll w ca es1).1 ++ (crawlAll w ca es2).1) ∧
    (∀ (w : CrawlWorld) (ca : Bool) (e : EngineConfig),
        e.active = true → w.get e.url = none →
        (crawlEngine w ca e).1 = some []) ∧
    (∀ (w : CrawlWorld) (ca : Bool) (e : EngineConfig) (r : Resp),
        e.active = true → w.get e.url = some r → r.status ≠ 200 →
        (crawlEngine w ca e).1 = none) ∧
    (∀ (w : CrawlWorld) (ca : Bool) (e : EngineConfig) (r : Resp)
        (p : List Node → List ResultRecord),
        e.active = true → w.get e.url = some r → r.status = 200 →
        e.parser = some p →
        (crawlEngine w ca e).1 =
          some (if ca && !(p (w.parse r.bodyText)).isEmpty
                then checkAliveAll w (p (w.parse r.bodyText))
                else p (w.parse r.bodyText))) := by
  refine ⟨?_, ?_, ?_, ?_⟩
  · intro w ca es1 es2
    induction es1 with
    | nil => simp [crawlAll]
    | cons e rest ih =>
      cases h : (crawlEngine w ca e).1 with
      | none => simp [crawlAll, h, ih]
      | some rs => simp [crawlAll, h, ih]
  · intro w ca e hact hget
    simp [crawlEngine, hact, hget]
  · intro w ca e r hact hget hst
    simp [crawlEngine, hact, hget, hst]
  · intro w ca e r p hact hget hst hp
    by_cases hc : (ca && !(p (w.parse r.bodyText)).isEmpty) = true
    · simp [crawlEngine, hact, hget, hst, hp, hc]
    · simp [crawlEngine, hact, hget, hst, hp,
        Bool.not_eq_true _ ▸ hc]

/-- Witness for C1 (amended): the active Tordex engine whose GET
answers 500 contributes no key. -/
theorem c1_witness :
    (crawlEngine http500World false
      { name := "Tordex",
        url := "http://tordexu73joywapk2txdr54jed4imqledpcvcuf75qsas2gwdgksvnyd.onion/search?query=drugs",
        parser := some parse_tordex }).1 = none :=
  c1_crawl_isolation.2.2.1 http500World false _ { status := 500 } rfl rfl
    (by decide)

/-- A redirect response carrying a `Location` header. -/
def locResp (l : String) : Resp :=
  { status := 302, headers := [("Location", l)] }

/-- A redirect topology with 6 distinct targets: `u0 → l1 → … → l6`
and `l6 → l6` (the chain stabilizes on a repeated target). -/
def hop6 (u : String) : String :=
  if u = "u0" then "l1" else if u = "l1" then "l2" else if u = "l2" then "l3"
  else if u = "l3" then "l4" else if u = "l4" then "l5" else if u = "l5" then "l6"
  else "l6"

/-- A scan world whose redirect-suppressed GETs follow `hop6`. -/
def redirect6World : ScanWorld :=
  { get := fun _ => .error "x", getNoRedirect := fun u => .ok (locResp (hop6 u)),
    parse := fun _ => [], sslCert := fun _ => .error "x",
    urljoinF := fun _ l => l }

/-- A redirect topology with 5 distinct targets before stabilizing. -/
def hop5 (u : String) : String :=
  if u = "u0" then "l1" else if u = "l1" then "l2" else if u = "l2" then "l3"
  else if u = "l3" then "l4" else if u = "l4" then "l5" else "l5"

/-- A scan world whose redirect-suppressed GETs follow `hop5`. -/
def redirect5World : ScanWorld :=
  { get := fun _ => .error "x", getNoRedirect := fun u => .ok (locResp (hop5 u)),
    parse := fun _ => [], sslCert := fun _ => .error "x",
    urljoinF := fun _ l => l }

/-- C5: the redirect deep pass chases `Location` headers for at most
10 hops (at most 10 requests), collects each target at most once, and
writes the single "possible trap" finding exactly when the loop
completed without exception having seen strictly more than 5 distinct
targets; the 6-distinct-target chain stops early after 7 requests and
yields exactly one finding, the 5-target chain yields none. -/
theorem c5_redirect_pass :
    (∀ (w : ScanWorld) (url : String) (rep : Report),
        getKey? (check_redirect_behavior w url rep).detected_issues "redirect" =
          match (redirectLoop w 10 url []).1 with
          | .ok seen =>
            if seen.length > 5 then
              some ["Multiple chained redirects (possible trap)"]
            else getKey? rep.detected_issues "redirect"
          | .error _ => getKey? rep.detected_issues "redirect") ∧
    (∀ (w : ScanWorld) (fuel : Nat) (current : String) (seen : List String),
        (redirectLoop w fuel current seen).2.length ≤ fuel) ∧
    (∀ (w : ScanWorld) (fuel : Nat) (current : String) (seen : List String),
        seen.Nodup → ∀ out, (redirectLoop w fuel current seen).1 = .ok out →
        out.Nodup ∧ out.length ≤ seen.length + fuel) ∧
    (redirectLoop redirect6World 10 "u0" []).1 =
      .ok ["l1", "l2", "l3", "l4", "l5", "l6"] ∧
    (redirectLoop redirect6World 10 "u0" []).2.length = 7 ∧
    (check_redirect_behavior redirect6World "u0"
        { url := "u", timestamp := "t" }).detected_issues =
      [("redirect", ["Multiple chained redirects (possible trap)"])] ∧
    (redirectLoop redirect5World 10 "u0" []).1 =
      .ok ["l1", "l2", "l3", "l4", "l5"] ∧
    (check_redirect_behavior redirect5World "u0"
        { url := "u", timestamp := "t" }).detected_issues = [] := by
  refine ⟨?_, ?_, ?_, rfl, rfl, rfl, rfl, rfl⟩
  · intro w url rep
    unfold check_redirect_behavior
    cases h : (redirectLoop w 10 url []).1 with
    | ok seen =>
      by_cases h5 : seen.length > 5
      · simp [h, h5, setIssue, getKey?_setKey_self]
      · simp [h, h5]
    | error e => simp [h]
  · intro w fuel
    induction fuel with
    | zero => intro current seen; simp [redirectLoop]
    | succ n ih =>
      intro current seen
      unfold redirectLoop
      split
      · simp
      · split
        · simp
        · split
          · simp
          · rename_i res loc hl hb
            have := ih (w.urljoinF current loc) (seen ++ [loc])
            simp only [List.length_cons]
            omega
  · intro w fuel
    induction fuel with
    | zero =>
      intro current seen hnd out hout
      simp [redirectLoop] at hout
      subst hout
      exact ⟨hnd, by omega⟩
    | succ n ih =>
      intro current seen hnd out hout
      unfold redirectLoop at hout
      split at hout
      · simp at hout
      · split at hout
        · simp at hout
          subst hout
          exact ⟨hnd, by omega⟩
        · split at hout
          · simp at hout
            subst hout
            exact ⟨hnd, by omega⟩
          · rename_i res loc hl hb
            simp only at hout
            have hmem : loc ∉ seen := by
              simp only [Bool.or_eq_true, decide_eq_true_eq] at hb
              push_neg at hb
              have := hb.2
              simpa using this
            have hnd2 : (seen ++ [loc]).Nodup := by
              simp [List.nodup_append, hnd, hmem]
            have hrec := ih (w.urljoinF current loc) (seen ++ [loc]) hnd2 out hout
            refine ⟨hrec.1, ?_⟩
            have := hrec.2
            simp only [List.length_append, List.length_singleton] at this
            omega

/-- Witness for C5: the targets collected by the 6-hop chase are
pairwise distinct; obtained from the loop invariant at a concrete
world with both hypotheses discharged. -/
theorem c5_witness :
    (["l1", "l2", "l3", "l4", "l5", "l6"] : List String).Nodup :=
  (c5_redirect_pass.2.2.1 redirect6World 10 "u0" [] (by simp)
    ["l1", "l2", "l3", "l4", "l5", "l6"] rfl).1

/-- A transport whose every GET raises. -/
def fetchFailWorld : ScanWorld :=
  { get := fun _ => .error "connection error",
    getNoRedirect := fun _ => .error "connection error",
    parse := fun _ => [], sslCert := fun _ => .error "x",
    urljoinF := fun _ l => l }

/-- C3: when the initial fetch raises, `analyze` returns (instead of
raising) the report with a non-empty error text; no analyzer pass runs
(empty trace), the findings mapping stays empty, and besides
`url`/`timestamp` everything else keeps its initial value. -/
theorem c3_fetch_failure :
    ∀ (url ts : String) (detail : Bool) (tc : List Node → List String)
      (w : ScanWorld) (e : String),
      w.get (normalize url) = .error e →
      (analyze tc w (Typhonn.init url detail ts)).2.1.error =
          some ("Failed to fetch page: " ++ e) ∧
      ("Failed to fetch page: " ++ e) ≠ "" ∧
      (analyze tc w (Typhonn.init url detail ts)).2.1.detected_issues = [] ∧
      (analyze tc w (Typhonn.init url detail ts)).2.2 = [] ∧
      (analyze tc w (Typhonn.init url detail ts)).2.1.url = normalize url ∧
      (analyze tc w (Typhonn.init url detail ts)).2.1.timestamp = ts ∧
      (analyze tc w (Typhonn.init url detail ts)).2.1.risk_score = 0 ∧
      (analyze tc w (Typhonn.init url detail ts)).2.1.threat_level = none := by
  intro url ts detail tc w e h
  have h2 : w.get (Typhonn.init url detail ts).url = .error e := h
  refine ⟨?_, ?_, ?_, ?_, ?_, ?_, ?_, ?_⟩
  · simp [analyze, h, Typhonn.init]
  · intro hh
    obtain ⟨le⟩ := e
    have hd := congrArg String.data hh
    simp at hd
  · simp [analyze, h, Typhonn.init]
  · simp [analyze, h, Typhonn.init]
  · simp [analyze, h, Typhonn.init]
  · simp [analyze, h, Typhonn.init]
  · simp [analyze, h, Typhonn.init]
  · simp [analyze, h, Typhonn.init]

/-- Witness for C3: a concrete scan against an always-failing
transport carries the error text and no findings. -/
theorem c3_witness :
    (analyze (fun _ => []) fetchFailWorld
        (Typhonn.init "example.com" false "t")).2.1.error =
      some "Failed to fetch page: connection error" ∧
    (analyze (fun _ => []) fetchFailWorld
        (Typhonn.init "example.com" false "t")).2.1.detected_issues = [] ∧
    (analyze (fun _ => []) fetchFailWorld
        (Typhonn.init "example.com" false "t")).2.2 = [] :=
  ⟨(c3_fetch_failure "example.com" "t" false (fun _ => []) fetchFailWorld
      "connection error" rfl).1,
   (c3_fetch_failure "example.com" "t" false (fun _ => []) fetchFailWorld
      "connection error" rfl).2.2.1,
   (c3_fetch_failure "example.com" "t" false (fun _ => []) fetchFailWorld
      "connection error" rfl).2.2.2.1⟩

/-- A transport whose every GET succeeds with an empty 200 response
and whose TLS connections fail. -/
def okFetchWorld : ScanWorld :=
  { get := fun _ => .ok { status := 200 },
    getNoRedirect := fun _ => .ok { status := 200 },
    parse := fun _ => [], sslCert := fun _ => .error "no tls",
    urljoinF := fun _ l => l }

/-- Counterexample to C4: on a successful fetch the scan does not run
exactly the six mandatory passes of spec §4.5 — a seventh mandatory
pass (the text-content analysis, called unconditionally between the
scripts pass and the deep probes) also runs. -/
theorem c4_counterexample :
    (analyze (fun _ => []) okFetchWorld
        (Typhonn.init "example.com" false "t")).2.2 ≠
      [Pass.headers, Pass.ssl, Pass.cookies, Pass.meta, Pass.forms,
       Pass.scripts] := by
  decide

/-- C4 (amended): on every successful fetch, `analyze` runs the
mandatory passes headers, TLS, cookies, meta, forms, scripts and the
text-content pass, in that fixed order, against the single fetched
response and parsed document; the deep probes (redirect, hidden paths,
honeypot) run after all of them, exactly when the detail flag is
set. -/
theorem c4_pass_order :
    ∀ (tc : List Node → List String) (w : ScanWorld) (t : Typhonn) (r : Resp),
      w.get t.url = .ok r →
      (analyze tc w t).2.2 =
        mandatoryPasses ++ (if t.detail then deepPasses else []) ∧
      mandatoryPasses =
        [Pass.headers, Pass.ssl, Pass.cookies, Pass.meta, Pass.forms,
         Pass.scripts, Pass.textContent] ∧
      deepPasses = [Pass.redirect, Pass.hiddenPaths, Pass.honeypot] := by
  intro tc w t r h
  refine ⟨?_, rfl, rfl⟩
  simp [analyze, h]

/-- Witness for C4 (amended): a concrete detailed scan against a
concrete responding transport runs the seven mandatory passes followed
by the three deep probes. -/
theorem c4_witness :
    (analyze (fun _ => []) okFetchWorld
        (Typhonn.init "example.com" true "t")).2.2 =
      mandatoryPasses ++
        (if (Typhonn.init "example.com" true "t").detail then deepPasses
         else []) :=
  (c4_pass_order (fun _ => []) okFetchWorld
    (Typhonn.init "example.com" true "t") { status := 200 } rfl).1

/-- C9: against an unchanged target (the same oracle for both runs), a
scanner constructed with `detail = false` produces identical findings
content on two consecutive `analyze` calls — identical per-category
finding sequences, risk score and threat level; every mandatory pass
is a pure function of the fetched response and parsed document, so the
second run overwrites each category with the same value. -/
theorem c9_idempotent_findings :
    ∀ (url ts : String) (tc : List Node → List String) (w : ScanWorld),
      (analyze tc w
          (analyze tc w (Typhonn.init url false ts)).1).2.1.detected_issues =
        (analyze tc w (Typhonn.init url false ts)).2.1.detected_issues ∧
      (analyze tc w
          (analyze tc w (Typhonn.init url false ts)).1).2.1.risk_score =
        (analyze tc w (Typhonn.init url false ts)).2.1.risk_score ∧
      (analyze tc w
          (analyze tc w (Typhonn.init url false ts)).1).2.1.threat_level =
        (analyze tc w (Typhonn.init url false ts)).2.1.threat_level := by
  intro url ts tc w
  cases h : w.get (normalize url) with
  | error e =>
    refine ⟨?_, ?_, ?_⟩ <;> simp [analyze, Typhonn.init, h]
  | ok r =>
    cases hs : w.sslCert (hostname (normalize url)) with
    | ok cert =>
      refine ⟨?_, ?_, ?_⟩ <;>
        simp +decide [analyze, Typhonn.init, h, hs, applySsl, setIssue,
          setKey, calculate_risk]
    | error e =>
      refine ⟨?_, ?_, ?_⟩ <;>
        simp +decide [analyze, Typhonn.init, h, hs, applySsl, setIssue,
          setKey, calculate_risk]

/-- `analyze` returns exactly the report object held by the returned
scanner state (the source mutates and returns `self.report`). -/
theorem analyze_report_eq (tc : List Node → List String) (w : ScanWorld)
    (t : Typhonn) : (analyze tc w t).2.1 = (analyze tc w t).1.report := by
  unfold analyze
  split <;> rfl

/-- `analyze` never changes the scanner's target URL. -/
theorem analyze_url_eq (tc : List Node → List String) (w : ScanWorld)
    (t : Typhonn) : (analyze tc w t).1.url = t.url := by
  unfold analyze
  split <;> rfl

/-- `analyze` never changes the scanner's detail flag. -/
theorem analyze_detail_eq (tc : List Node → List String) (w : ScanWorld)
    (t : Typhonn) : (analyze tc w t).1.detail = t.detail := by
  unfold analyze
  split <;> rfl

/-- Setting a findings category never touches the timestamp. -/
theorem setIssue_timestamp (rep : Report) (k : String) (v : List String) :
    (setIssue rep k v).timestamp = rep.timestamp := rfl

/-- The SSL pass never touches the timestamp. -/
theorem applySsl_timestamp (w : ScanWorld) (u : String) (rep : Report) :
    (applySsl w u rep).timestamp = rep.timestamp := by
  unfold applySsl
  split <;> rfl

/-- The redirect pass never touches the timestamp. -/
theorem check_redirect_timestamp (w : ScanWorld) (u : String) (rep : Report) :
    (check_redirect_behavior w u rep).timestamp = rep.timestamp := by
  unfold check_redirect_behavior
  split
  · split <;> rfl
  · rfl

/-- Risk aggregation never touches the timestamp. -/
theorem calculate_risk_timestamp (rep : Report) :
    (calculate_risk rep).timestamp = rep.timestamp := rfl

/-- The report returned by `analyze` keeps the timestamp the scanner
was constructed with. -/
theorem analyze_timestamp_eq (tc : List Node → List String) (w : ScanWorld)
    (t : Typhonn) : (analyze tc w t).2.1.timestamp = t.report.timestamp := by
  unfold analyze
  split
  · rfl
  · by_cases hd : t.detail <;>
      simp [hd, calculate_risk_timestamp, setIssue_timestamp,
        applySsl_timestamp, check_redirect_timestamp]

/-- Setting a category makes its lookup return the new value. -/
theorem getKey?_setIssue_self (rep : Report) (k : String) (v : List String) :
    getKey? (setIssue rep k v).detected_issues k = some v :=
  getKey?_setKey_self rep.detected_issues k v

/-- Setting a category leaves the others' lookups unchanged. -/
theorem getKey?_setIssue_ne (rep : Report) (k k2 : String) (v : List String)
    (h : k2 ≠ k) :
    getKey? (setIssue rep k v).detected_issues k2 =
      getKey? rep.detected_issues k2 :=
  getKey?_setKey_ne rep.detected_issues k k2 v h

/-- The SSL pass writes at most the `ssl` category. -/
theorem getKey?_applySsl_ne (w : ScanWorld) (u : String) (rep : Report)
    (k : String) (h : k ≠ "ssl") :
    getKey? (applySsl w u rep).detected_issues k =
      getKey? rep.detected_issues k := by
  unfold applySsl
  split
  · rfl
  · exact getKey?_setKey_ne rep.detected_issues "ssl" k _ h

/-- The redirect pass writes at most the `redirect` category. -/
theorem getKey?_check_redirect_ne (w : ScanWorld) (u : String) (rep : Report)
    (k : String) (h : k ≠ "redirect") :
    getKey? (check_redirect_behavior w u rep).detected_issues k =
      getKey? rep.detected_issues k := by
  unfold check_redirect_behavior
  split
  · split
    · exact getKey?_setKey_ne rep.detected_issues "redirect" k _ h
    · rfl
  · rfl

/-- The `headers` category of the report returned by `analyze`: on a
successful fetch it is overwritten with the fresh analysis of that
response, on a failed fetch the previous value survives. -/
theorem analyze_headers_key (tc : List Node → List String) (w : ScanWorld)
    (t : Typhonn) :
    getKey? (analyze tc w t).2.1.detected_issues "headers" =
      match w.get t.url with
      | .ok r => some (analyze_headers r)
      | .error _ => getKey? t.report.detected_issues "headers" := by
  cases h : w.get t.url with
  | error e => simp [analyze, h]
  | ok r =>
    show getKey? (analyze tc w t).2.1.detected_issues "headers" =
      some (analyze_headers r)
    unfold analyze
    rw [h]
    by_cases hd : t.detail <;>
      simp +decide [hd, calculate_risk, getKey?_setIssue_ne,
        getKey?_check_redirect_ne, getKey?_applySsl_ne, getKey?_setIssue_self]

/-- C10: the report's timestamp is fixed at construction and `analyze`
mutates and returns the single report held by the scanner: both calls
return the state's own report, both returned reports carry the
construction timestamp `ts`, and the second call overwrites a
per-category finding sequence (shown for `headers`) with the fresh
value from its own fetch rather than keeping the first call's value —
the first call's value survives only when the second fetch fails. -/
theorem c10_report_lifecycle :
    ∀ (url ts : String) (detail : Bool) (tc : List Node → List String)
      (w1 w2 : ScanWorld),
      (analyze tc w1 (Typhonn.init url detail ts)).2.1 =
        (analyze tc w1 (Typhonn.init url detail ts)).1.report ∧
      (analyze tc w2 (analyze tc w1 (Typhonn.init url detail ts)).1).2.1 =
        (analyze tc w2 (analyze tc w1 (Typhonn.init url detail ts)).1).1.report ∧
      (analyze tc w1 (Typhonn.init url detail ts)).2.1.timestamp = ts ∧
      (analyze tc w2
          (analyze tc w1 (Typhonn.init url detail ts)).1).2.1.timestamp = ts ∧
      getKey? (analyze tc w2
          (analyze tc w1 (Typhonn.init url detail ts)).1).2.1.detected_issues
          "headers" =
        match w2.get (normalize url) with
        | .ok r => some (analyze_headers r)
        | .error _ =>
          getKey? (analyze tc w1
              (Typhonn.init url detail ts)).2.1.detected_issues "headers" := by
  intro url ts detail tc w1 w2
  have hts1 : (analyze tc w1 (Typhonn.init url detail ts)).2.1.timestamp = ts :=
    analyze_timestamp_eq tc w1 (Typhonn.init url detail ts)
  have hurl : (analyze tc w1 (Typhonn.init url detail ts)).1.url =
      normalize url :=
    analyze_url_eq tc w1 (Typhonn.init url detail ts)
  refine ⟨analyze_report_eq tc w1 _, analyze_report_eq tc w2 _, hts1, ?_, ?_⟩
  · rw [analyze_timestamp_eq tc w2 _, ← analyze_report_eq tc w1 _, hts1]
  · rw [analyze_headers_key tc w2 _, hurl, ← analyze_report_eq tc w1 _]

/-- The description recovered by the Tor66 extractor is never the
empty string: an empty or missing sibling text degrades to
`"No Description"`. -/
theorem tor66Description_ne (rest : List (Node × Option Node)) :
    tor66Description rest ≠ "" := by
  unfold tor66Description
  split
  · dsimp only
    split
    · decide
    · assumption
  · decide

/-- Every record the Tor66 anchor builder emits has a nonempty title,
description and domain (the documented defaults fill the gaps). -/
theorem mkTor66Record_fields (href : String) (a : Node)
    (rest : List (Node × Option Node)) (r : ResultRecord)
    (h : mkTor66Record href a rest = some r) :
    r.title ≠ "" ∧ r.description ≠ "" ∧ r.domain ≠ "" := by
  unfold mkTor66Record at h
  split at h
  · injection h with h
    subst h
    refine ⟨?_, tor66Description_ne rest, ?_⟩
    · dsimp only
      split
      · decide
      · assumption
    · dsimp only
      split
      · decide
      · assumption
  · exact absurd h (by simp)

/-- Every record emitted by the Tor66 extraction loop has nonempty
title, description and domain. -/
theorem tor66Loop_fields :
    ∀ (l : List (Node × Option Node)) (r : ResultRecord), r ∈ tor66Loop l →
      r.title ≠ "" ∧ r.description ≠ "" ∧ r.domain ≠ "" := by
  intro l
  induction l with
  | nil => intro r hr; simp [tor66Loop] at hr
  | cons p rest ih =>
    intro r hr
    obtain ⟨n, sib⟩ := p
    unfold tor66Loop at hr
    split at hr
    · rename_i href hhref
      split at hr
      · rename_i r0 hmk
        rcases List.mem_cons.mp hr with h | h
        · subst h; exact mkTor66Record_fields href n rest _ hmk
        · exact ih r h
      · exact ih r hr
    · exact ih r hr

/-- C7: both extractors are total functions of the parsed document
(no input makes them raise — every exception path of the source is
guarded) returning one ordered record list; absent pieces degrade to
the documented defaults.  Tordex: one record per `div.result` block,
in document order; a missing `h5` gives title `"No Title"`, a missing
`p` gives description `"No Description"`, a missing `h6` gives empty
URL text, an unparsable host gives domain `"Unknown"`, and the domain
is never empty.  Tor66: every emitted record has nonempty title,
description and domain (`"No Title"` / `"No Description"` /
`"Unknown"` fill the gaps). -/
theorem c7_extractor_defaults :
    (∀ (doc : List Node) (block : Node), block ∈ selectResultDivs doc →
        mkTordexRecord block ∈ parse_tordex doc ∧
        (findDesc block "h5" = none →
          (mkTordexRecord block).title = "No Title") ∧
        (findDesc block "p" = none →
          (mkTordexRecord block).description = "No Description") ∧
        (findDesc block "h6" = none → (mkTordexRecord block).url = "") ∧
        (netloc (mkTordexRecord block).url = "" →
          (mkTordexRecord block).domain = "Unknown") ∧
        (mkTordexRecord block).domain ≠ "") ∧
    (∀ doc : List Node,
        (parse_tordex doc).length = (selectResultDivs doc).length) ∧
    (∀ (doc : List Node) (r : ResultRecord), r ∈ parse_tor66 doc →
        r.title ≠ "" ∧ r.description ≠ "" ∧ r.domain ≠ "") := by
  refine ⟨?_, ?_, ?_⟩
  · intro doc block hb
    refine ⟨List.mem_map_of_mem _ hb, ?_, ?_, ?_, ?_, ?_⟩
    · intro h5
      simp [mkTordexRecord, h5]
    · intro hp
      simp [mkTordexRecord, hp]
    · intro h6
      simp [mkTordexRecord, h6]
    · intro hnet
      simp only [mkTordexRecord] at hnet ⊢
      simp [hnet]
    · simp only [mkTordexRecord]
      split
      · decide
      · assumption
  · intro doc
    simp [parse_tordex]
  · intro doc r hr
    exact tor66Loop_fields (flatForest doc) r hr

/-- The empty Tordex result block used as the C7 witness input. -/
def tordexEmptyBlock : Node := .elem "div" [("class", "result")] []

/-- A two-node document exercising both extractors' default paths. -/
def c7doc : List Node :=
  [tordexEmptyBlock, .elem "a" [("href", "url.php?u=x.onion")] []]

/-- The record the Tor66 extractor emits for `c7doc`: every field
filled by a documented default. -/
def c7rec : ResultRecord :=
  { title := "No Title", url := "x.onion",
    description := "No Description", domain := "Unknown" }

/-- Witness for C7: the default-filled records of a concrete document
with a bare result block and a bare redirect-wrapper anchor. -/
theorem c7_witness :
    (mkTordexRecord tordexEmptyBlock).domain ≠ "" ∧
    (mkTordexRecord tordexEmptyBlock).title = "No Title" ∧
    c7rec.title ≠ "" ∧ c7rec.description ≠ "" ∧ c7rec.domain ≠ "" :=
  ⟨(c7_extractor_defaults.1 c7doc tordexEmptyBlock (List.Mem.head _)).2.2.2.2.2,
   (c7_extractor_defaults.1 c7doc tordexEmptyBlock (List.Mem.head _)).2.1 rfl,
   (c7_extractor_defaults.2.2 c7doc c7rec (List.Mem.head _)).1,
   (c7_extractor_defaults.2.2 c7doc c7rec (List.Mem.head _)).2.1,
   (c7_extractor_defaults.2.2 c7doc c7rec (List.Mem.head _)).2.2⟩

end Vigilante
